import Mathlib

/-!
Shallow embedding of `httpstat.go` from jon4hz/go-httpstat.

Instants (`time.Time`) are modelled as `Nat`, with `0` playing the role of
Go's zero time (`IsZero` becomes `= 0`); real events fire at positive times.
Durations (`time.Duration`) are modelled as `Int`, and `time.Time.Sub` as
exact integer subtraction `tsub`.  The `Result` struct, its lifecycle-event
handlers (the closures installed by `withClientTrace`), `End`, the two
accessors and the `durations()` map are each translated field by field from
the source.  The mutex is not part of the functional state.
-/

namespace Httpstat

/-- Subtraction of two instants, as Go's `time.Time.Sub`, yielding a
(possibly negative) duration. -/
def tsub (a b : Nat) : Int := (a : Int) - (b : Int)

/-- The `Result` struct of `httpstat.go`: ten duration fields, ten
timestamp fields and the two flags, in source order.  `contentTransfer`
and `total` are the unexported duration fields. -/
structure Result where
  DNSLookup : Int := 0
  TCPConnection : Int := 0
  TLSHandshake : Int := 0
  ServerProcessing : Int := 0
  contentTransfer : Int := 0
  NameLookup : Int := 0
  Connect : Int := 0
  Pretransfer : Int := 0
  StartTransfer : Int := 0
  total : Int := 0
  dnsStart : Nat := 0
  dnsDone : Nat := 0
  tcpStart : Nat := 0
  tcpDone : Nat := 0
  tlsStart : Nat := 0
  tlsDone : Nat := 0
  serverStart : Nat := 0
  serverDone : Nat := 0
  transferStart : Nat := 0
  transferDone : Nat := 0
  isTLS : Bool := false
  isReused : Bool := false
deriving DecidableEq, Repr

/-- A freshly constructed `Result`: every field at its zero value. -/
def Result.init : Result := {}

/-- The `durations()` method: the literal map from name to duration field,
pair by pair as written in the source.  Note that the source maps the key
"Pretransfer" to the field `r.Connect`, not to `r.Pretransfer`. -/
def Result.durations (r : Result) : List (String × Int) :=
  [("DNSLookup", r.DNSLookup),
   ("TCPConnection", r.TCPConnection),
   ("TLSHandshake", r.TLSHandshake),
   ("ServerProcessing", r.ServerProcessing),
   ("ContentTransfer", r.contentTransfer),
   ("NameLookup", r.NameLookup),
   ("Connect", r.Connect),
   ("Pretransfer", r.Connect),
   ("StartTransfer", r.StartTransfer),
   ("Total", r.total)]

/-- Reading one entry of the `durations()` map (a map read in Go yields the
zero value for an absent key). -/
def Result.snapshot (r : Result) (k : String) : Int :=
  ((r.durations).lookup k).getD 0

/-- The `End` method: records `transferDone`, and unless `dnsStart` is the
zero time computes `contentTransfer` and `total`. -/
def Result.End (r : Result) (t : Nat) : Result :=
  let r1 := { r with transferDone := t }
  if r1.dnsStart = 0 then r1
  else { r1 with contentTransfer := tsub r1.transferDone r1.transferStart,
                 total := tsub r1.transferDone r1.dnsStart }

/-- The `ContentTransfer` accessor: `t.Sub(r.serverDone)`, unguarded. -/
def Result.ContentTransfer (r : Result) (t : Nat) : Int :=
  tsub t r.serverDone

/-- The `Total` accessor: `t.Sub(r.dnsStart)`, unguarded. -/
def Result.Total (r : Result) (t : Nat) : Int :=
  tsub t r.dnsStart

/-- The lifecycle events whose handlers `withClientTrace` installs.
`gotConnE` carries the `Reused` flag of `httptrace.GotConnInfo`. -/
inductive Event where
  | dnsStartE
  | dnsDoneE
  | connectStartE
  | connectDoneE
  | tlsStartE
  | tlsDoneE
  | gotConnE (reused : Bool)
  | wroteRequestE
  | gotFirstByteE
deriving DecidableEq, Repr

open Event

/-- One handler invocation: the event `e` fires at instant `now`
(`time.Now()` inside the handler).  Each branch is the body of the
corresponding closure in `withClientTrace`, translated statement by
statement. -/
def step (r : Result) (e : Event) (now : Nat) : Result :=
  match e with
  | dnsStartE => { r with dnsStart := now }
  | dnsDoneE =>
      { r with dnsDone := now,
               DNSLookup := tsub now r.dnsStart,
               NameLookup := tsub now r.dnsStart }
  | connectStartE =>
      let r1 := { r with tcpStart := now }
      if r1.dnsStart = 0 then { r1 with dnsStart := r1.tcpStart, dnsDone := r1.tcpStart }
      else r1
  | connectDoneE =>
      { r with tcpDone := now,
               TCPConnection := tsub now r.tcpStart,
               Connect := tsub now r.dnsStart }
  | tlsStartE => { r with isTLS := true, tlsStart := now }
  | tlsDoneE =>
      { r with tlsDone := now,
               TLSHandshake := tsub now r.tlsStart,
               Pretransfer := tsub now r.dnsStart }
  | gotConnE reused => if reused then { r with isReused := true } else r
  | wroteRequestE =>
      let r1 := { r with serverStart := now }
      let r2 := if r1.dnsStart = 0 ∧ r1.tcpStart = 0 then
          { r1 with dnsStart := now, dnsDone := now, tcpStart := now, tcpDone := now }
        else r1
      let r3 := if r2.isReused then
          { r2 with dnsStart := now, dnsDone := now, tcpStart := now,
                    tcpDone := now, tlsStart := now, tlsDone := now }
        else r2
      if r3.isTLS then r3
      else { r3 with TLSHandshake := tsub r3.tcpDone r3.tcpDone,
                     Pretransfer := r3.Connect }
  | gotFirstByteE =>
      { r with serverDone := now,
               ServerProcessing := tsub now r.serverStart,
               StartTransfer := tsub now r.dnsStart,
               transferStart := now }

/-- Folding a timed event list through the tracker. -/
def runEvents (r : Result) (l : List (Event × Nat)) : Result :=
  l.foldl (fun s p => step s p.1 p.2) r

/-- Every recorded timestamp of `r` is at or before the instant `now`:
the clock handed to the handlers is monotone. -/
def tsLe (r : Result) (now : Nat) : Prop :=
  r.dnsStart ≤ now ∧ r.dnsDone ≤ now ∧ r.tcpStart ≤ now ∧ r.tcpDone ≤ now ∧
  r.tlsStart ≤ now ∧ r.tlsDone ≤ now ∧ r.serverStart ≤ now ∧ r.serverDone ≤ now ∧
  r.transferStart ≤ now ∧ r.transferDone ≤ now

/-- Lifecycle-order dependencies of the event source: a done-event only
fires on a tracker whose matching start-event has fired (left a non-zero
timestamp), the TLS handshake only starts once a fresh TCP dial has
started, and the first response byte only arrives after the request was
written.  Skipped phases (direct IP, keep-alive reuse, degraded clients)
remain expressible because the skipped events simply do not occur. -/
def eventGuard (r : Result) : Event → Prop
  | dnsDoneE => r.dnsStart ≠ 0
  | connectDoneE => r.tcpStart ≠ 0
  | tlsStartE => r.tcpStart ≠ 0
  | tlsDoneE => r.tlsStart ≠ 0
  | gotFirstByteE => r.serverStart ≠ 0
  | _ => True

/-- A legal handler invocation: the event fires at a positive instant not
earlier than anything already recorded, respecting lifecycle order. -/
def OkStep (r : Result) (e : Event) (now : Nat) : Prop :=
  0 < now ∧ tsLe r now ∧ eventGuard r e

/-- A timed event list the real event source could deliver to tracker
state `r`: each step legal for the state it meets. -/
def WFRun : Result → List (Event × Nat) → Prop
  | _, [] => True
  | r, (e, t) :: rest => OkStep r e t ∧ WFRun (step r e t) rest

/-- Every one of the ten derived duration fields is non-negative. -/
def NonNegDur (r : Result) : Prop :=
  0 ≤ r.DNSLookup ∧ 0 ≤ r.TCPConnection ∧ 0 ≤ r.TLSHandshake ∧
  0 ≤ r.ServerProcessing ∧ 0 ≤ r.contentTransfer ∧ 0 ≤ r.NameLookup ∧
  0 ≤ r.Connect ∧ 0 ≤ r.Pretransfer ∧ 0 ≤ r.StartTransfer ∧ 0 ≤ r.total

/-- Each duration is non-zero only once its defining timestamps are set.
For `Pretransfer` the defining pair follows the two ways the source
computes it: from `tlsDone` in the TLS-done handler, or (normalization C,
plaintext) as a copy of the connect timeline, whose far end is `tcpDone`. -/
def DefinedOnce (r : Result) : Prop :=
  (r.DNSLookup ≠ 0 → r.dnsStart ≠ 0 ∧ r.dnsDone ≠ 0) ∧
  (r.NameLookup ≠ 0 → r.dnsStart ≠ 0 ∧ r.dnsDone ≠ 0) ∧
  (r.TCPConnection ≠ 0 → r.tcpStart ≠ 0 ∧ r.tcpDone ≠ 0) ∧
  (r.Connect ≠ 0 → r.dnsStart ≠ 0 ∧ r.tcpDone ≠ 0) ∧
  (r.TLSHandshake ≠ 0 → r.tlsStart ≠ 0 ∧ r.tlsDone ≠ 0) ∧
  (r.Pretransfer ≠ 0 → r.dnsStart ≠ 0 ∧ (r.tlsDone ≠ 0 ∨ r.tcpDone ≠ 0)) ∧
  (r.ServerProcessing ≠ 0 → r.serverStart ≠ 0 ∧ r.serverDone ≠ 0) ∧
  (r.StartTransfer ≠ 0 → r.dnsStart ≠ 0 ∧ r.serverDone ≠ 0) ∧
  (r.contentTransfer ≠ 0 → r.transferStart ≠ 0 ∧ r.transferDone ≠ 0) ∧
  (r.total ≠ 0 → r.dnsStart ≠ 0 ∧ r.transferDone ≠ 0)

/-- Anchor facts the handlers maintain: whenever a TCP dial, TLS handshake
or request write has been recorded, the `dnsStart` anchor is set. -/
def AnchorAux (r : Result) : Prop :=
  (r.tcpStart ≠ 0 → r.dnsStart ≠ 0) ∧
  (r.tlsStart ≠ 0 → r.dnsStart ≠ 0) ∧
  (r.serverStart ≠ 0 → r.dnsStart ≠ 0)

/-- The inductive state invariant of the tracker. -/
def Inv (r : Result) : Prop :=
  NonNegDur r ∧ DefinedOnce r ∧ AnchorAux r

theorem inv_init : Inv Result.init := by
  constructor
  · exact ⟨le_refl 0, le_refl 0, le_refl 0, le_refl 0, le_refl 0,
      le_refl 0, le_refl 0, le_refl 0, le_refl 0, le_refl 0⟩
  constructor
  · exact ⟨fun h => absurd rfl h, fun h => absurd rfl h, fun h => absurd rfl h,
      fun h => absurd rfl h, fun h => absurd rfl h, fun h => absurd rfl h,
      fun h => absurd rfl h, fun h => absurd rfl h, fun h => absurd rfl h,
      fun h => absurd rfl h⟩
  · exact ⟨fun h => absurd rfl h, fun h => absurd rfl h, fun h => absurd rfl h⟩

theorem sub_self_ne {x : Nat} (h : tsub x x ≠ 0) : False :=
  h (Int.sub_self (x : Int))

theorem tsub_nonneg {a b : Nat} (h : b ≤ a) : 0 ≤ tsub a b :=
  Int.sub_nonneg.mpr (Int.ofNat_le.mpr h)

theorem inv_step {r : Result} {e : Event} {now : Nat}
    (hinv : Inv r) (hok : OkStep r e now) : Inv (step r e now) := by
  obtain ⟨DL,TC,TH,SP,CT,NL,Cn,Pt,ST,To,ds,dd,cs,cd,ts,td,ss,sd,fs,fd,iT,iR⟩ := r
  obtain ⟨⟨n1,n2,n3,n4,n5,n6,n7,n8,n9,n10⟩,
    ⟨d1,d2,d3,d4,d5,d6,d7,d8,d9,d10⟩, ⟨a1,a2,a3⟩⟩ := hinv
  obtain ⟨hpos, hle, hg⟩ := hok
  obtain ⟨l1,l2,l3,l4,l5,l6,l7,l8,l9,l10⟩ := hle
  dsimp only at *
  have hnow : now ≠ 0 := Nat.pos_iff_ne_zero.mp hpos
  cases e with
  | dnsStartE =>
      exact ⟨⟨n1,n2,n3,n4,n5,n6,n7,n8,n9,n10⟩,
        ⟨fun h => ⟨hnow, (d1 h).2⟩, fun h => ⟨hnow, (d2 h).2⟩, d3,
         fun h => ⟨hnow, (d4 h).2⟩, d5, fun h => ⟨hnow, (d6 h).2⟩, d7,
         fun h => ⟨hnow, (d8 h).2⟩, d9, fun h => ⟨hnow, (d10 h).2⟩⟩,
        ⟨fun _ => hnow, fun _ => hnow, fun _ => hnow⟩⟩
  | dnsDoneE =>
      replace hg : ds ≠ 0 := hg
      exact ⟨⟨tsub_nonneg l1,n2,n3,n4,n5,tsub_nonneg l1,n7,n8,n9,n10⟩,
        ⟨fun _ => ⟨hg, hnow⟩, fun _ => ⟨hg, hnow⟩, d3, d4, d5, d6, d7, d8, d9, d10⟩,
        ⟨a1,a2,a3⟩⟩
  | connectStartE =>
      simp only [step]
      split
      · exact ⟨⟨n1,n2,n3,n4,n5,n6,n7,n8,n9,n10⟩,
          ⟨fun _ => ⟨hnow, hnow⟩, fun _ => ⟨hnow, hnow⟩, fun h => ⟨hnow, (d3 h).2⟩,
           fun h => ⟨hnow, (d4 h).2⟩, d5, fun h => ⟨hnow, (d6 h).2⟩, d7,
           fun h => ⟨hnow, (d8 h).2⟩, d9, fun h => ⟨hnow, (d10 h).2⟩⟩,
          ⟨fun _ => hnow, fun _ => hnow, fun _ => hnow⟩⟩
      · next hds =>
        exact ⟨⟨n1,n2,n3,n4,n5,n6,n7,n8,n9,n10⟩,
          ⟨d1, d2, fun h => ⟨hnow, (d3 h).2⟩, d4, d5, d6, d7, d8, d9, d10⟩,
          ⟨fun _ => hds, a2, a3⟩⟩
  | connectDoneE =>
      replace hg : cs ≠ 0 := hg
      have hds : ds ≠ 0 := a1 hg
      exact ⟨⟨n1,tsub_nonneg l3,n3,n4,n5,n6,tsub_nonneg l1,n8,n9,n10⟩,
        ⟨d1, d2, fun _ => ⟨hg, hnow⟩, fun _ => ⟨hds, hnow⟩, d5,
         fun h => ⟨(d6 h).1, Or.inr hnow⟩, d7, d8, d9, d10⟩,
        ⟨a1,a2,a3⟩⟩
  | tlsStartE =>
      replace hg : cs ≠ 0 := hg
      exact ⟨⟨n1,n2,n3,n4,n5,n6,n7,n8,n9,n10⟩,
        ⟨d1, d2, d3, d4, fun h => ⟨hnow, (d5 h).2⟩, d6, d7, d8, d9, d10⟩,
        ⟨a1, fun _ => a1 hg, a3⟩⟩
  | tlsDoneE =>
      replace hg : ts ≠ 0 := hg
      have hds : ds ≠ 0 := a2 hg
      exact ⟨⟨n1,n2,tsub_nonneg l5,n4,n5,n6,n7,tsub_nonneg l1,n9,n10⟩,
        ⟨d1, d2, d3, d4, fun _ => ⟨hg, hnow⟩,
         fun _ => ⟨hds, Or.inl hnow⟩, d7, d8, d9, d10⟩,
        ⟨a1,a2,a3⟩⟩
  | gotConnE reused =>
      simp only [step]
      split
      · exact ⟨⟨n1,n2,n3,n4,n5,n6,n7,n8,n9,n10⟩,
          ⟨d1,d2,d3,d4,d5,d6,d7,d8,d9,d10⟩, ⟨a1,a2,a3⟩⟩
      · exact ⟨⟨n1,n2,n3,n4,n5,n6,n7,n8,n9,n10⟩,
          ⟨d1,d2,d3,d4,d5,d6,d7,d8,d9,d10⟩, ⟨a1,a2,a3⟩⟩
  | wroteRequestE =>
      simp only [step]
      split
      · -- normalization A fired
        split
        · -- normalization B fired as well
          split
          · -- isTLS: no duration change
            exact ⟨⟨n1,n2,n3,n4,n5,n6,n7,n8,n9,n10⟩,
              ⟨fun _ => ⟨hnow, hnow⟩, fun _ => ⟨hnow, hnow⟩, fun _ => ⟨hnow, hnow⟩,
               fun _ => ⟨hnow, hnow⟩, fun _ => ⟨hnow, hnow⟩,
               fun h => ⟨hnow, Or.inr hnow⟩, fun h => ⟨hnow, (d7 h).2⟩,
               fun h => ⟨hnow, (d8 h).2⟩, d9, fun h => ⟨hnow, (d10 h).2⟩⟩,
              ⟨fun _ => hnow, fun _ => hnow, fun _ => hnow⟩⟩
          · -- plaintext branch
            exact ⟨⟨n1,n2,tsub_nonneg (le_refl now),n4,n5,n6,n7,n7,n9,n10⟩,
              ⟨fun _ => ⟨hnow, hnow⟩, fun _ => ⟨hnow, hnow⟩, fun _ => ⟨hnow, hnow⟩,
               fun _ => ⟨hnow, hnow⟩, fun h => (sub_self_ne h).elim,
               fun _ => ⟨hnow, Or.inr hnow⟩, fun h => ⟨hnow, (d7 h).2⟩,
               fun h => ⟨hnow, (d8 h).2⟩, d9, fun h => ⟨hnow, (d10 h).2⟩⟩,
              ⟨fun _ => hnow, fun _ => hnow, fun _ => hnow⟩⟩
        · -- A fired, not reused
          split
          · exact ⟨⟨n1,n2,n3,n4,n5,n6,n7,n8,n9,n10⟩,
              ⟨fun _ => ⟨hnow, hnow⟩, fun _ => ⟨hnow, hnow⟩, fun _ => ⟨hnow, hnow⟩,
               fun _ => ⟨hnow, hnow⟩, d5,
               fun h => ⟨hnow, Or.inr hnow⟩, fun h => ⟨hnow, (d7 h).2⟩,
               fun h => ⟨hnow, (d8 h).2⟩, d9, fun h => ⟨hnow, (d10 h).2⟩⟩,
              ⟨fun _ => hnow, fun _ => hnow, fun _ => hnow⟩⟩
          · exact ⟨⟨n1,n2,tsub_nonneg (le_refl now),n4,n5,n6,n7,n7,n9,n10⟩,
              ⟨fun _ => ⟨hnow, hnow⟩, fun _ => ⟨hnow, hnow⟩, fun _ => ⟨hnow, hnow⟩,
               fun _ => ⟨hnow, hnow⟩, fun h => (sub_self_ne h).elim,
               fun _ => ⟨hnow, Or.inr hnow⟩, fun h => ⟨hnow, (d7 h).2⟩,
               fun h => ⟨hnow, (d8 h).2⟩, d9, fun h => ⟨hnow, (d10 h).2⟩⟩,
              ⟨fun _ => hnow, fun _ => hnow, fun _ => hnow⟩⟩
      · -- A did not fire
        next hA =>
        have hds0 : ds ≠ 0 := (not_and_or.mp hA).elim id a1
        split
        · -- reused: normalization B fired
          split
          · exact ⟨⟨n1,n2,n3,n4,n5,n6,n7,n8,n9,n10⟩,
              ⟨fun _ => ⟨hnow, hnow⟩, fun _ => ⟨hnow, hnow⟩, fun _ => ⟨hnow, hnow⟩,
               fun _ => ⟨hnow, hnow⟩, fun _ => ⟨hnow, hnow⟩,
               fun h => ⟨hnow, Or.inr hnow⟩, fun h => ⟨hnow, (d7 h).2⟩,
               fun h => ⟨hnow, (d8 h).2⟩, d9, fun h => ⟨hnow, (d10 h).2⟩⟩,
              ⟨fun _ => hnow, fun _ => hnow, fun _ => hnow⟩⟩
          · exact ⟨⟨n1,n2,tsub_nonneg (le_refl now),n4,n5,n6,n7,n7,n9,n10⟩,
              ⟨fun _ => ⟨hnow, hnow⟩, fun _ => ⟨hnow, hnow⟩, fun _ => ⟨hnow, hnow⟩,
               fun _ => ⟨hnow, hnow⟩, fun h => (sub_self_ne h).elim,
               fun _ => ⟨hnow, Or.inr hnow⟩, fun h => ⟨hnow, (d7 h).2⟩,
               fun h => ⟨hnow, (d8 h).2⟩, d9, fun h => ⟨hnow, (d10 h).2⟩⟩,
              ⟨fun _ => hnow, fun _ => hnow, fun _ => hnow⟩⟩
        · -- untouched timestamps
          split
          · exact ⟨⟨n1,n2,n3,n4,n5,n6,n7,n8,n9,n10⟩,
              ⟨d1, d2, d3, d4, d5, d6, fun h => ⟨hnow, (d7 h).2⟩,
               d8, d9, d10⟩,
              ⟨a1, a2, fun _ => hds0⟩⟩
          · exact ⟨⟨n1,n2,tsub_nonneg (le_refl cd),n4,n5,n6,n7,n7,n9,n10⟩,
              ⟨d1, d2, d3, d4, fun h => (sub_self_ne h).elim,
               fun h => ⟨(d4 h).1, Or.inr (d4 h).2⟩, fun h => ⟨hnow, (d7 h).2⟩,
               d8, d9, d10⟩,
              ⟨a1, a2, fun _ => hds0⟩⟩
  | gotFirstByteE =>
      replace hg : ss ≠ 0 := hg
      have hds : ds ≠ 0 := a3 hg
      exact ⟨⟨n1,n2,n3,tsub_nonneg l7,n5,n6,n7,n8,tsub_nonneg l1,n10⟩,
        ⟨d1, d2, d3, d4, d5, d6, fun _ => ⟨hg, hnow⟩,
         fun _ => ⟨hds, hnow⟩, fun h => ⟨hnow, (d9 h).2⟩, d10⟩,
        ⟨a1,a2,a3⟩⟩

theorem inv_run {r : Result} {l : List (Event × Nat)}
    (hinv : Inv r) (hwf : WFRun r l) : Inv (runEvents r l) := by
  induction l generalizing r with
  | nil => exact hinv
  | cons p rest ih =>
      obtain ⟨e, t⟩ := p
      obtain ⟨hok, hwf'⟩ := hwf
      exact ih (inv_step hinv hok) hwf'

theorem wfRun_append_left {r : Result} {l1 l2 : List (Event × Nat)}
    (h : WFRun r (l1 ++ l2)) : WFRun r l1 := by
  induction l1 generalizing r with
  | nil => trivial
  | cons p rest ih =>
      obtain ⟨e, t⟩ := p
      obtain ⟨hok, h'⟩ := h
      exact ⟨hok, ih h'⟩

theorem snapshot_nonneg {r : Result} (h : NonNegDur r) : ∀ k, 0 ≤ r.snapshot k := by
  obtain ⟨h1,h2,h3,h4,h5,h6,h7,h8,h9,h10⟩ := h
  intro k
  simp only [Result.snapshot, Result.durations, List.lookup]
  repeat' split
  all_goals simp only [Option.getD_some, Option.getD_none]
  all_goals first | assumption | exact le_refl 0

theorem step_dnsStart (r : Result) (now : Nat) :
    step r dnsStartE now = { r with dnsStart := now } := rfl

theorem step_dnsDone (r : Result) (now : Nat) :
    step r dnsDoneE now =
      { r with dnsDone := now, DNSLookup := tsub now r.dnsStart,
               NameLookup := tsub now r.dnsStart } := rfl

theorem step_connectStart_anchored {r : Result} (h : r.dnsStart ≠ 0) (now : Nat) :
    step r connectStartE now = { r with tcpStart := now } := by
  simp [step, h]

theorem step_connectDone (r : Result) (now : Nat) :
    step r connectDoneE now =
      { r with tcpDone := now, TCPConnection := tsub now r.tcpStart,
               Connect := tsub now r.dnsStart } := rfl

theorem step_tlsStart (r : Result) (now : Nat) :
    step r tlsStartE now = { r with isTLS := true, tlsStart := now } := rfl

theorem step_tlsDone (r : Result) (now : Nat) :
    step r tlsDoneE now =
      { r with tlsDone := now, TLSHandshake := tsub now r.tlsStart,
               Pretransfer := tsub now r.dnsStart } := rfl

theorem step_gotConn_reused (r : Result) (now : Nat) :
    step r (gotConnE true) now = { r with isReused := true } := rfl

theorem step_wroteRequest_tls {r : Result} (hds : r.dnsStart ≠ 0)
    (hre : r.isReused = false) (htls : r.isTLS = true) (now : Nat) :
    step r wroteRequestE now = { r with serverStart := now } := by
  simp [step, hds, hre, htls]

theorem step_wroteRequest_reused {r : Result} (hre : r.isReused = true)
    (htls : r.isTLS = false) (now : Nat) :
    step r wroteRequestE now =
      { r with serverStart := now, dnsStart := now, dnsDone := now,
               tcpStart := now, tcpDone := now, tlsStart := now,
               tlsDone := now, TLSHandshake := 0,
               Pretransfer := r.Connect } := by
  simp only [step, hre, htls]
  split <;> simp [tsub]

theorem step_gotFirstByte (r : Result) (now : Nat) :
    step r gotFirstByteE now =
      { r with serverDone := now, ServerProcessing := tsub now r.serverStart,
               StartTransfer := tsub now r.dnsStart,
               transferStart := now } := rfl

instance (r : Result) (now : Nat) : Decidable (tsLe r now) := by
  unfold tsLe; infer_instance

instance (r : Result) (e : Event) : Decidable (eventGuard r e) := by
  cases e <;> simp only [eventGuard] <;> infer_instance

instance (r : Result) (e : Event) (now : Nat) : Decidable (OkStep r e now) := by
  unfold OkStep; infer_instance

instance wfRunDecidable : (r : Result) → (l : List (Event × Nat)) → Decidable (WFRun r l)
  | _, [] => isTrue True.intro
  | r, (e, t) :: rest =>
      haveI : Decidable (WFRun (step r e t) rest) := wfRunDecidable _ rest
      inferInstanceAs (Decidable (_ ∧ _))

theorem snapshot_DNSLookup (r : Result) : r.snapshot "DNSLookup" = r.DNSLookup := rfl

theorem snapshot_TCPConnection (r : Result) :
    r.snapshot "TCPConnection" = r.TCPConnection := rfl

theorem snapshot_TLSHandshake (r : Result) :
    r.snapshot "TLSHandshake" = r.TLSHandshake := rfl

theorem snapshot_ServerProcessing (r : Result) :
    r.snapshot "ServerProcessing" = r.ServerProcessing := rfl

theorem snapshot_ContentTransfer (r : Result) :
    r.snapshot "ContentTransfer" = r.contentTransfer := rfl

theorem snapshot_NameLookup (r : Result) : r.snapshot "NameLookup" = r.NameLookup := rfl

theorem snapshot_Connect (r : Result) : r.snapshot "Connect" = r.Connect := rfl

theorem snapshot_Pretransfer (r : Result) : r.snapshot "Pretransfer" = r.Connect := rfl

theorem snapshot_StartTransfer (r : Result) :
    r.snapshot "StartTransfer" = r.StartTransfer := rfl

theorem snapshot_Total (r : Result) : r.snapshot "Total" = r.total := rfl

/-- A complete fresh TLS exchange: every lifecycle event fires once, in
lifecycle order, at the given instants, and the caller finalizes at `t9`. -/
def fullTLSExchange (t1 t2 t3 t4 t5 t6 tg t7 t8 t9 : Nat) : Result :=
  (runEvents Result.init
    [(dnsStartE, t1), (dnsDoneE, t2), (connectStartE, t3), (connectDoneE, t4),
     (tlsStartE, t5), (tlsDoneE, t6), (gotConnE false, tg), (wroteRequestE, t7),
     (gotFirstByteE, t8)]).End t9

theorem fullTLSExchange_eq (t1 t2 t3 t4 t5 t6 tg t7 t8 t9 : Nat) (h1 : t1 ≠ 0) :
    fullTLSExchange t1 t2 t3 t4 t5 t6 tg t7 t8 t9 =
      { DNSLookup := tsub t2 t1, TCPConnection := tsub t4 t3,
        TLSHandshake := tsub t6 t5, ServerProcessing := tsub t8 t7,
        contentTransfer := tsub t9 t8, NameLookup := tsub t2 t1,
        Connect := tsub t4 t1, Pretransfer := tsub t6 t1,
        StartTransfer := tsub t8 t1, total := tsub t9 t1,
        dnsStart := t1, dnsDone := t2, tcpStart := t3, tcpDone := t4,
        tlsStart := t5, tlsDone := t6, serverStart := t7, serverDone := t8,
        transferStart := t8, transferDone := t9,
        isTLS := true, isReused := false } := by
  simp [fullTLSExchange, runEvents, step, Result.End, Result.init, tsub, h1]

/-- C1: the spec makes the TLS-aware assignment authoritative for the
"Pretransfer" entry of Snapshot, i.e. `tlsDone - dnsStart`.  The code
computes that value into the field `Pretransfer` in the TLS-done handler
but `durations()` maps the key "Pretransfer" to `r.Connect`
(`tcpDone - dnsStart`) — an apparent copy/paste slip the spec itself
flags.  On a fresh TLS exchange at instants 1..9 the Snapshot entry is 3
(the connect timeline) while the authoritative TLS-aware value is 5. -/
theorem pretransfer_key_exposes_connect :
    (fullTLSExchange 1 2 3 4 5 6 6 7 8 9).snapshot "Pretransfer" = 3 ∧
    (fullTLSExchange 1 2 3 4 5 6 6 7 8 9).Pretransfer = 5 ∧
    tsub (fullTLSExchange 1 2 3 4 5 6 6 7 8 9).tlsDone
      (fullTLSExchange 1 2 3 4 5 6 6 7 8 9).dnsStart = 5 ∧
    (fullTLSExchange 1 2 3 4 5 6 6 7 8 9).snapshot "Pretransfer" ≠
      tsub (fullTLSExchange 1 2 3 4 5 6 6 7 8 9).tlsDone
        (fullTLSExchange 1 2 3 4 5 6 6 7 8 9).dnsStart := by decide

/-- C2 (counterexample): on a complete fresh TLS exchange at instants
1..9 the Snapshot reports Total = 8 but the five phase durations sum to
5: the inter-phase gaps (dnsDone to connectStart, connectDone to
TLS-start, TLS-done to request-written) are part of Total but of no
phase, so the claimed equality fails. -/
theorem total_sum_counterexample :
    (fullTLSExchange 1 2 3 4 5 6 6 7 8 9).snapshot "Total" = 8 ∧
    (fullTLSExchange 1 2 3 4 5 6 6 7 8 9).snapshot "DNSLookup" +
      (fullTLSExchange 1 2 3 4 5 6 6 7 8 9).snapshot "TCPConnection" +
      (fullTLSExchange 1 2 3 4 5 6 6 7 8 9).snapshot "TLSHandshake" +
      (fullTLSExchange 1 2 3 4 5 6 6 7 8 9).snapshot "ServerProcessing" +
      (fullTLSExchange 1 2 3 4 5 6 6 7 8 9).snapshot "ContentTransfer" = 5 ∧
    ¬ ((fullTLSExchange 1 2 3 4 5 6 6 7 8 9).snapshot "Total" =
      (fullTLSExchange 1 2 3 4 5 6 6 7 8 9).snapshot "DNSLookup" +
      (fullTLSExchange 1 2 3 4 5 6 6 7 8 9).snapshot "TCPConnection" +
      (fullTLSExchange 1 2 3 4 5 6 6 7 8 9).snapshot "TLSHandshake" +
      (fullTLSExchange 1 2 3 4 5 6 6 7 8 9).snapshot "ServerProcessing" +
      (fullTLSExchange 1 2 3 4 5 6 6 7 8 9).snapshot "ContentTransfer") := by decide

/-- C2 (amended): for every complete fresh TLS exchange with a monotone
positive clock, the Total entry of Snapshot equals the sum of the five
phase durations plus the three non-negative inter-phase gaps; hence the
sum never exceeds Total, with equality exactly when the phases are
contiguous (as in the collapsed reused case). -/
theorem total_eq_sum_plus_gaps
    (t1 t2 t3 t4 t5 t6 tg t7 t8 t9 : Nat)
    (h1 : 0 < t1) (h2 : t1 ≤ t2) (h3 : t2 ≤ t3) (h4 : t3 ≤ t4) (h5 : t4 ≤ t5)
    (h6 : t5 ≤ t6) (hg6 : t6 ≤ tg) (h7 : tg ≤ t7) (h8 : t7 ≤ t8) (h9 : t8 ≤ t9) :
    (fullTLSExchange t1 t2 t3 t4 t5 t6 tg t7 t8 t9).snapshot "Total" =
      (fullTLSExchange t1 t2 t3 t4 t5 t6 tg t7 t8 t9).snapshot "DNSLookup" +
      (fullTLSExchange t1 t2 t3 t4 t5 t6 tg t7 t8 t9).snapshot "TCPConnection" +
      (fullTLSExchange t1 t2 t3 t4 t5 t6 tg t7 t8 t9).snapshot "TLSHandshake" +
      (fullTLSExchange t1 t2 t3 t4 t5 t6 tg t7 t8 t9).snapshot "ServerProcessing" +
      (fullTLSExchange t1 t2 t3 t4 t5 t6 tg t7 t8 t9).snapshot "ContentTransfer" +
      (tsub t3 t2 + tsub t5 t4 + tsub t7 t6) ∧
    (fullTLSExchange t1 t2 t3 t4 t5 t6 tg t7 t8 t9).snapshot "DNSLookup" +
      (fullTLSExchange t1 t2 t3 t4 t5 t6 tg t7 t8 t9).snapshot "TCPConnection" +
      (fullTLSExchange t1 t2 t3 t4 t5 t6 tg t7 t8 t9).snapshot "TLSHandshake" +
      (fullTLSExchange t1 t2 t3 t4 t5 t6 tg t7 t8 t9).snapshot "ServerProcessing" +
      (fullTLSExchange t1 t2 t3 t4 t5 t6 tg t7 t8 t9).snapshot "ContentTransfer" ≤
      (fullTLSExchange t1 t2 t3 t4 t5 t6 tg t7 t8 t9).snapshot "Total" := by
  rw [fullTLSExchange_eq t1 t2 t3 t4 t5 t6 tg t7 t8 t9 (by omega)]
  simp only [snapshot_Total, snapshot_DNSLookup, snapshot_TCPConnection,
    snapshot_TLSHandshake, snapshot_ServerProcessing, snapshot_ContentTransfer, tsub]
  constructor <;> omega

theorem total_eq_sum_plus_gaps_witness :
    (fullTLSExchange 1 2 3 4 5 6 6 7 8 9).snapshot "DNSLookup" +
      (fullTLSExchange 1 2 3 4 5 6 6 7 8 9).snapshot "TCPConnection" +
      (fullTLSExchange 1 2 3 4 5 6 6 7 8 9).snapshot "TLSHandshake" +
      (fullTLSExchange 1 2 3 4 5 6 6 7 8 9).snapshot "ServerProcessing" +
      (fullTLSExchange 1 2 3 4 5 6 6 7 8 9).snapshot "ContentTransfer" ≤
      (fullTLSExchange 1 2 3 4 5 6 6 7 8 9).snapshot "Total" :=
  (total_eq_sum_plus_gaps 1 2 3 4 5 6 6 7 8 9 (by decide) (by decide) (by decide)
    (by decide) (by decide) (by decide) (by decide) (by decide) (by decide)
    (by decide)).2

/-- C3 (counterexample): the connection-obtained handler only sets the
reuse flag and the TLS-handshake-start handler only sets `isTLS` and
`tlsStart`; fired as the first event at instant 5 they leave the
`dnsStart` anchor at the zero time, contradicting the claim that the
anchor is set once any single event has fired. -/
theorem anchor_unset_after_first_event :
    (runEvents Result.init [(gotConnE true, 5)]).dnsStart = 0 ∧
    (runEvents Result.init [(tlsStartE, 5)]).dnsStart = 0 := by decide

/-- C3 (amended): the `dnsStart` anchor is established by the DNS-start
and connect-start handlers (at any positive instant), and every handler
preserves it once set; events such as connection-obtained or
TLS-handshake-start fired first do not establish it. -/
theorem dnsStart_anchor (r : Result) (e : Event) (now : Nat) (hpos : 0 < now) :
    ((e = dnsStartE ∨ e = connectStartE) → (step r e now).dnsStart ≠ 0) ∧
    (r.dnsStart ≠ 0 → (step r e now).dnsStart ≠ 0) := by
  have hnow : now ≠ 0 := Nat.pos_iff_ne_zero.mp hpos
  constructor
  · rintro (rfl | rfl)
    · simpa [step] using hnow
    · simp only [step]
      split
      · simpa using hnow
      · next h => simpa using h
  · intro h
    cases e <;> simp only [step] <;> (repeat' split) <;> (try simp only []) <;>
      first | exact hnow | exact h

theorem dnsStart_anchor_witness :
    (step Result.init connectStartE 3).dnsStart ≠ 0 :=
  (dnsStart_anchor Result.init connectStartE 3 (by decide)).1 (Or.inr rfl)

/-- C7: along every run the lifecycle event source can deliver — events
at positive, monotone instants, a done-event only after its start-event
(`WFRun`) — every prefix leaves the tracker with all ten derived
durations non-negative (hence every Snapshot entry non-negative), and
each duration non-zero only once its defining timestamps are set. -/
theorem durations_nonneg_defined (run pre suf : List (Event × Nat))
    (hwf : WFRun Result.init run) (hpre : run = pre ++ suf) :
    NonNegDur (runEvents Result.init pre) ∧
    DefinedOnce (runEvents Result.init pre) ∧
    (∀ k, 0 ≤ (runEvents Result.init pre).snapshot k) := by
  subst hpre
  have h := inv_run inv_init (wfRun_append_left hwf)
  exact ⟨h.1, h.2.1, snapshot_nonneg h.1⟩

theorem durations_nonneg_defined_witness :
    NonNegDur (runEvents Result.init [(dnsStartE, 1), (dnsDoneE, 2)]) ∧
    DefinedOnce (runEvents Result.init [(dnsStartE, 1), (dnsDoneE, 2)]) ∧
    (∀ k, 0 ≤ (runEvents Result.init [(dnsStartE, 1), (dnsDoneE, 2)]).snapshot k) :=
  durations_nonneg_defined
    [(dnsStartE, 1), (dnsDoneE, 2), (connectStartE, 3)]
    [(dnsStartE, 1), (dnsDoneE, 2)] [(connectStartE, 3)] (by decide) rfl

/-- C4: `End t` always records `transferDone = t`; when `dnsStart` is the
zero time it changes nothing else (so on a tracker that never received an
event the content-transfer and total durations stay zero), and otherwise
it sets `contentTransfer = transferDone - transferStart` and
`total = transferDone - dnsStart`. -/
theorem end_spec (r : Result) (t : Nat) :
    ((r.End t).transferDone = t) ∧
    (r.dnsStart = 0 → r.End t = { r with transferDone := t }) ∧
    (r.dnsStart ≠ 0 →
      (r.End t).contentTransfer = tsub t r.transferStart ∧
      (r.End t).total = tsub t r.dnsStart) ∧
    (Result.init.End t).contentTransfer = 0 ∧ (Result.init.End t).total = 0 := by
  refine ⟨?_, fun h => ?_, fun h => ?_, rfl, rfl⟩
  · by_cases h : r.dnsStart = 0 <;> simp [Result.End, h]
  · simp [Result.End, h]
  · simp [Result.End, h]

theorem end_spec_witness :
    Result.init.dnsStart = 0 ∧
    Result.init.End 7 = { Result.init with transferDone := 7 } :=
  ⟨rfl, (end_spec Result.init 7).2.1 rfl⟩

/-- A keep-alive exchange: the connection is obtained reused at `a`, the
request written at `b`, the first response byte read at `c`, and the
caller finalizes at `d`. -/
def reusedExchange (a b c d : Nat) : Result :=
  (runEvents Result.init
    [(gotConnE true, a), (wroteRequestE, b), (gotFirstByteE, c)]).End d

theorem reusedExchange_eq (a b c d : Nat) (hb : b ≠ 0) :
    reusedExchange a b c d =
      { DNSLookup := 0, TCPConnection := 0, TLSHandshake := 0,
        ServerProcessing := tsub c b, contentTransfer := tsub d c,
        NameLookup := 0, Connect := 0, Pretransfer := 0,
        StartTransfer := tsub c b, total := tsub d b,
        dnsStart := b, dnsDone := b, tcpStart := b, tcpDone := b,
        tlsStart := b, tlsDone := b, serverStart := b, serverDone := c,
        transferStart := c, transferDone := d,
        isTLS := false, isReused := true } := by
  simp [reusedExchange, runEvents, step, Result.End, Result.init, tsub, hb]

/-- C5: a reused (keep-alive) exchange with strictly increasing positive
event times reports `DNSLookup = TCPConnection = TLSHandshake = 0` in
Snapshot while `ServerProcessing` and `ContentTransfer` are strictly
positive. -/
theorem reused_exchange_phases (a b c d : Nat)
    (h0 : 0 < a) (hab : a < b) (hbc : b < c) (hcd : c < d) :
    (reusedExchange a b c d).snapshot "DNSLookup" = 0 ∧
    (reusedExchange a b c d).snapshot "TCPConnection" = 0 ∧
    (reusedExchange a b c d).snapshot "TLSHandshake" = 0 ∧
    0 < (reusedExchange a b c d).snapshot "ServerProcessing" ∧
    0 < (reusedExchange a b c d).snapshot "ContentTransfer" := by
  rw [reusedExchange_eq a b c d (by omega)]
  simp only [snapshot_DNSLookup, snapshot_TCPConnection, snapshot_TLSHandshake,
    snapshot_ServerProcessing, snapshot_ContentTransfer, tsub]
  refine ⟨trivial, trivial, trivial, by omega, by omega⟩

theorem reused_exchange_phases_witness :
    (reusedExchange 1 2 3 4).snapshot "DNSLookup" = 0 ∧
    (reusedExchange 1 2 3 4).snapshot "TCPConnection" = 0 ∧
    (reusedExchange 1 2 3 4).snapshot "TLSHandshake" = 0 ∧
    0 < (reusedExchange 1 2 3 4).snapshot "ServerProcessing" ∧
    0 < (reusedExchange 1 2 3 4).snapshot "ContentTransfer" :=
  reused_exchange_phases 1 2 3 4 (by decide) (by decide) (by decide) (by decide)

/-- C6: the connect-start handler records `tcpStart = now`; exactly when
`dnsStart` is still the zero time it also sets `dnsStart` and `dnsDone`
to that instant, and when `dnsStart` is already set it changes no field
other than `tcpStart`. -/
theorem connectStart_spec (r : Result) (now : Nat) :
    ((step r connectStartE now).tcpStart = now) ∧
    (r.dnsStart = 0 →
      (step r connectStartE now).dnsStart = now ∧
      (step r connectStartE now).dnsDone = now) ∧
    (r.dnsStart ≠ 0 → step r connectStartE now = { r with tcpStart := now }) := by
  refine ⟨?_, fun h => ?_, fun h => ?_⟩
  · by_cases h : r.dnsStart = 0 <;> simp [step, h]
  · simp [step, h]
  · simp [step, h]

theorem connectStart_spec_witness :
    Result.init.dnsStart = 0 ∧
    (step Result.init connectStartE 4).dnsStart = 4 ∧
    (step Result.init connectStartE 4).dnsDone = 4 :=
  ⟨rfl, (connectStart_spec Result.init 4).2.1 rfl⟩

/-- C9: the accessors `ContentTransfer` and `Total`, unlike `End`, have
no emptiness guard: on a tracker whose `serverDone` (resp. `dnsStart`)
was never set they return `t` minus the zero time — the whole positive
offset `t`, not zero — while `End` on an untouched tracker leaves the
stored durations at zero. -/
theorem accessors_unguarded (r : Result) (t : Nat) (hpos : 0 < t) :
    (r.serverDone = 0 → r.ContentTransfer t = (t : Int) ∧ 0 < r.ContentTransfer t) ∧
    (r.dnsStart = 0 → r.Total t = (t : Int) ∧ 0 < r.Total t) ∧
    (Result.init.End t).contentTransfer = 0 ∧ (Result.init.End t).total = 0 := by
  refine ⟨fun h => ?_, fun h => ?_, rfl, rfl⟩
  · simp only [Result.ContentTransfer, tsub, h]
    constructor <;> omega
  · simp only [Result.Total, tsub, h]
    constructor <;> omega

theorem accessors_unguarded_witness :
    Result.ContentTransfer Result.init 5 = (5 : Int) ∧
    0 < Result.ContentTransfer Result.init 5 :=
  (accessors_unguarded Result.init 5 (by decide)).1 rfl

theorem isTLS_step_ne {e : Event} (hne : e ≠ tlsStartE) (r : Result) (now : Nat) :
    (step r e now).isTLS = r.isTLS := by
  cases e <;> (try exact absurd rfl hne) <;> (try simp only [step]) <;>
    (repeat' split) <;> (try rfl)

theorem isTLS_step_true {r : Result} (h : r.isTLS = true) (e : Event) (now : Nat) :
    (step r e now).isTLS = true := by
  cases e <;> (try simp only [step]) <;> (repeat' split) <;> (try rfl) <;>
    (try exact h)

/-- C10: `isTLS` is set only by the TLS-handshake-start handler and never
reset, so over any run in which that event does not fire (such as a
reused connection whose handshake happened on an earlier request) it
stays false, and the request-written handler then takes the plaintext
branch: it zeroes `TLSHandshake` and copies the connect timeline into
`Pretransfer`. -/
theorem isTLS_monotone_plaintext (r : Result) (e : Event) (now : Nat)
    (l : List (Event × Nat)) :
    ((∀ p ∈ l, p.1 ≠ tlsStartE) → r.isTLS = false → (runEvents r l).isTLS = false) ∧
    (r.isTLS = true → (step r e now).isTLS = true) ∧
    (r.isTLS = false →
      (step r wroteRequestE now).TLSHandshake = 0 ∧
      (step r wroteRequestE now).Pretransfer = (step r wroteRequestE now).Connect) := by
  refine ⟨?_, fun h => isTLS_step_true h e now, fun h => ?_⟩
  · intro hne htls
    induction l generalizing r with
    | nil => exact htls
    | cons p rest ih =>
        obtain ⟨e', t'⟩ := p
        have h1 : (step r e' t').isTLS = r.isTLS :=
          isTLS_step_ne (hne (e', t') (List.mem_cons_self _ _)) r t'
        exact ih (step r e' t')
          (fun q hq => hne q (List.mem_cons_of_mem _ hq)) (h1.trans htls)
  · by_cases hA : r.dnsStart = 0 ∧ r.tcpStart = 0 <;>
      by_cases hB : r.isReused = true <;>
      simp [step, h, hA, hB, tsub]

theorem isTLS_monotone_plaintext_witness :
    (runEvents Result.init [(gotConnE true, 1), (wroteRequestE, 2)]).isTLS = false :=
  (isTLS_monotone_plaintext Result.init dnsStartE 1
    [(gotConnE true, 1), (wroteRequestE, 2)]).1 (by decide) rfl

end Httpstat
